import Mathlib

/-!
Verification of the roslibpy ROS Bridge protocol core (`comm.py`).

The module under study implements `RosBridgeProtocol` (JSON envelope
dispatch, the pending-service-request correlation table, send paths) and
`RosBridgeClientFactory` (the one-shot readiness gate built on a Deferred).

The embedding is a shallow one: the mutable protocol object becomes an
explicit `ProtoState` threaded through each method, Python exceptions
become `Except ProtoError`, and invocations of externally supplied
callbacks (service-request callbacks, the topic fan-out `factory.emit`)
are recorded as a list of `Event`s instead of being executed, since those
callbacks are opaque to the core.  Callbacks themselves are identified by
natural-number tokens; `Option Nat` models a possibly-`None` Python
callback (a Python function object is always truthy, `None` is falsy).

JSON decoding of the wire bytes is an external primitive, so inbound
frames arrive here already decoded into a `Msg` (an ordered string-keyed
object, matching the `Message` dict wrapper of the source).
-/

namespace Roslibpy

mutual

/-- JSON-compatible values as produced by `json.loads`.  Floats are not
modelled; the fields the core inspects (`op`, `id`, `result`) are strings
and booleans on the wire.  Integers are kept because Python's
`message['result'] == False` also holds for the integer `0`.  Arrays and
objects are their own inductives (mutually defined cons-lists) so that
decidable equality can be derived. -/
inductive JValue where
  | null
  | bool (b : Bool)
  | num (n : Int)
  | str (s : String)
  | arr (elems : JArray)
  | obj (fields : JObject)
  deriving Repr, DecidableEq

inductive JArray where
  | nil
  | cons (hd : JValue) (tl : JArray)
  deriving Repr, DecidableEq

inductive JObject where
  | nil
  | cons (key : String) (val : JValue) (tl : JObject)
  deriving Repr, DecidableEq

end

/-- A decoded JSON object / `Message` dict: ordered string-keyed fields. -/
abbrev Msg := List (String × JValue)

/-- `message[k]` lookup on a decoded object (first matching key). -/
def mlookup (m : Msg) (k : String) : Option JValue :=
  match m with
  | [] => none
  | (k', v) :: rest => if k' = k then some v else mlookup rest k

/-- Dictionary lookup for the protocol's internal tables
(`_pending_service_requests`, `_message_handlers`), modelled as
association lists with first-match semantics. -/
def dlookup {K V : Type} [DecidableEq K] (d : List (K × V)) (k : K) : Option V :=
  match d with
  | [] => none
  | (k', v) :: rest => if k' = k then some v else dlookup rest k

/-- `d[k] = v` on a Python dict: replace the value of an existing key in
place, else append the new binding. -/
def dinsert {K V : Type} [DecidableEq K] (d : List (K × V)) (k : K) (v : V) :
    List (K × V) :=
  match d with
  | [] => [(k, v)]
  | (k', v') :: rest => if k' = k then (k, v) :: rest else (k', v') :: dinsert rest k v

/-- `del d[k]` on a Python dict.  A dict never holds duplicate keys, so
removing every matching binding agrees with removing the one binding. -/
def derase {K V : Type} [DecidableEq K] (d : List (K × V)) (k : K) : List (K × V) :=
  d.filter (fun p => !(decide (p.1 = k)))

/-- Python's `x == False` test used at `comm.py:98`: true for the boolean
`False` and for the integer `0` (Python bool/int equality coercion). -/
def pyEqFalse : JValue → Bool
  | .bool b => !b
  | .num n => n == 0
  | _ => false

/-- `'result' in message and message['result'] == False` (`comm.py:98`). -/
def resultIsFalse (m : Msg) : Bool :=
  match mlookup m "result" with
  | none => false
  | some v => pyEqFalse v

/-- A registered message handler (`_message_handlers` values).  The two
defaults are installed in `__init__`; anything added later through
`register_message_handlers` is an opaque external callback. -/
inductive Handler where
  | handlePublish
  | handleServiceResponse
  | custom (tok : Nat)
  deriving Repr, DecidableEq

/-- Python exceptions raised by the core, named after the spec's error
taxonomy.  Source raise sites: `unsupportedFrame` = the
`NotImplementedError` for binary frames (`comm.py:76`); `unknownOperation`
= "No handler registered for operation" (`comm.py:81`); `handlerConflict`
= "Only one handler can be registered per operation" (`comm.py:50`);
`unknownRequestId` = "No handler registered for service request ID"
(`comm.py:93`); `keyError k` = Python `KeyError` on a missing field `k`;
`sendFailure` = a transport-level error raised by `sendMessage`. -/
inductive ProtoError where
  | unsupportedFrame
  | unknownOperation
  | handlerConflict
  | unknownRequestId
  | keyError (k : String)
  | sendFailure
  deriving Repr, DecidableEq

/-- Observable effects on external collaborators: `invoke cb arg` records
calling the opaque callback identified by `cb` with payload `arg` (for a
success callback the source wraps the payload as `ServiceRequest(values)`,
a content-preserving dict wrapper, so the payload itself is recorded);
`emit topic msg` records the call site `self.factory.emit(topic, msg)` of
the topic fan-out; `customDispatch tok m` records a registered non-default
handler receiving the envelope. -/
inductive Event where
  | invoke (cb : Nat) (arg : JValue)
  | emit (topic : JValue) (msg : JValue)
  | customDispatch (tok : Nat) (m : Msg)
  deriving Repr, DecidableEq

/-- The mutable state of a `RosBridgeProtocol` instance together with its
transport: `pending` is `_pending_service_requests` (id value ↦ the
`(callback, errback)` pair), `handlers` is `_message_handlers`, `sent` the
frames successfully written to the transport, `transportFails` whether the
underlying `sendMessage` raises, and `log` the records of `LOGGER`. -/
structure ProtoState where
  pending : List (JValue × (Option Nat × Option Nat))
  handlers : List (String × Handler)
  sent : List Msg
  transportFails : Bool
  log : List String
  deriving Repr, DecidableEq

/-- `__init__` (`comm.py:19`): empty correlation table, the two default
handlers for `publish` and `service_response`. -/
def initState (transportFails : Bool) : ProtoState :=
  { pending := []
    handlers := [("publish", .handlePublish), ("service_response", .handleServiceResponse)]
    sent := []
    transportFails := transportFails
    log := [] }

/-- The transport's `sendMessage` (external, autobahn): either the frame
is written or a transport-level exception is raised. -/
def sendMessage (st : ProtoState) (frame : Msg) : ProtoState × Except ProtoError Unit :=
  if st.transportFails then (st, .error .sendFailure)
  else ({ st with sent := st.sent ++ [frame] }, .ok ())

/-- `send_ros_message` (`comm.py:29`): serialize and send; any send error
is caught, logged and swallowed — the method always returns normally, so
its result type carries no error channel at all. -/
def send_ros_message (st : ProtoState) (message : Msg) : ProtoState :=
  match sendMessage st message with
  | (st', .ok _) => st'
  | (st', .error _) => { st' with log := st'.log ++ ["Failed to send message"] }

/-- `register_message_handlers` (`comm.py:42`): refuse any operation that
already has a handler, including the two defaults. -/
def register_message_handlers (st : ProtoState) (operation : String) (handler : Handler) :
    ProtoState × Except ProtoError Unit :=
  if (dlookup st.handlers operation).isSome then
    (st, .error .handlerConflict)
  else
    ({ st with handlers := dinsert st.handlers operation handler }, .ok ())

/-- `send_ros_service_request` (`comm.py:54`): read the request id (a
`KeyError` if absent), store the `(callback, errback)` pair in the
correlation table, then send — with no `try` around the send, so a
transport error propagates while the registration stays in place. -/
def send_ros_service_request (st : ProtoState) (service_request : Msg)
    (callback errback : Option Nat) : ProtoState × Except ProtoError Unit :=
  match mlookup service_request "id" with
  | none => (st, .error (.keyError "id"))
  | some request_id =>
      let st₁ := { st with pending := dinsert st.pending request_id (callback, errback) }
      sendMessage st₁ service_request

/-- `_handle_publish` (`comm.py:85`): `self.factory.emit(message['topic'],
message['msg'])`, recorded as a single fan-out event. -/
def handle_publish (st : ProtoState) (m : Msg) : ProtoState × Except ProtoError (List Event) :=
  match mlookup m "topic" with
  | none => (st, .error (.keyError "topic"))
  | some topic =>
      match mlookup m "msg" with
      | none => (st, .error (.keyError "msg"))
      | some payload => (st, .ok [.emit topic payload])

/-- `_handle_service_response` (`comm.py:88`): pop the pending entry for
`message['id']` (raising if there is none), delete it from the table
first, then call the errback when `result` is present and `== False`,
else the callback — each only when non-`None`. -/
def handle_service_response (st : ProtoState) (m : Msg) :
    ProtoState × Except ProtoError (List Event) :=
  match mlookup m "id" with
  | none => (st, .error (.keyError "id"))
  | some request_id =>
      match dlookup st.pending request_id with
      | none => (st, .error .unknownRequestId)
      | some (callback, errback) =>
          let st' := { st with pending := derase st.pending request_id }
          if resultIsFalse m then
            match errback with
            | none => (st', .ok [])
            | some e =>
                match mlookup m "values" with
                | none => (st', .error (.keyError "values"))
                | some v => (st', .ok [.invoke e v])
          else
            match callback with
            | none => (st', .ok [])
            | some c =>
                match mlookup m "values" with
                | none => (st', .error (.keyError "values"))
                | some v => (st', .ok [.invoke c v])

/-- Handler lookup `self._message_handlers.get(message['op'], None)`
(`comm.py:79`): the registry is keyed by operation strings, so a
non-string `op` value finds no handler. -/
def lookupHandler (st : ProtoState) (opv : JValue) : Option Handler :=
  match opv with
  | .str s => dlookup st.handlers s
  | _ => none

/-- Run the handler found in the registry on the envelope. -/
def runHandler (st : ProtoState) (h : Handler) (m : Msg) :
    ProtoState × Except ProtoError (List Event) :=
  match h with
  | .handlePublish => handle_publish st m
  | .handleServiceResponse => handle_service_response st m
  | .custom tok => (st, .ok [.customDispatch tok m])

/-- `onMessage` (`comm.py:74`): binary frames raise `NotImplementedError`;
otherwise the (externally JSON-decoded) envelope is dispatched on its
`op` tag, raising when no handler is registered for it. -/
def onMessage (st : ProtoState) (payload : Msg) (isBinary : Bool) :
    ProtoState × Except ProtoError (List Event) :=
  if isBinary then (st, .error .unsupportedFrame)
  else
    match mlookup payload "op" with
    | none => (st, .error (.keyError "op"))
    | some opv =>
        match lookupHandler st opv with
        | none => (st, .error .unknownOperation)
        | some h => runHandler st h payload

/-- The single outcome a resolved readiness gate holds: the live protocol
session (identified by a token) or a connection-failure reason. -/
inductive GateOutcome where
  | session (proto : Nat)
  | failure (reason : Nat)
  deriving Repr, DecidableEq

/-- A readiness-gate consumer callback being notified of the outcome. -/
inductive GateEvent where
  | notify (cb : Nat) (outcome : GateOutcome)
  deriving Repr, DecidableEq

/-- Resolving an already-resolved gate is an error (the single-assignment
discipline; Twisted raises `AlreadyCalledError` there). -/
inductive GateError where
  | alreadyResolved
  deriving Repr, DecidableEq

/-- The readiness gate `_on_ready_event` of `RosBridgeClientFactory`: the
consumers registered while unresolved, and the outcome once resolved. -/
structure Gate where
  waiting : List Nat
  outcome : Option GateOutcome
  deriving Repr, DecidableEq

/-- `RosBridgeClientFactory.__init__` (`comm.py:113`): a fresh, unresolved
gate per factory/connection attempt. -/
def gateInit : Gate := { waiting := [], outcome := none }

/-- Modelled from the spec: `on_ready` (`comm.py:117`) delegates to
`Deferred.addCallback`, whose implementation (Twisted) is not part of
`src/`.  Per the spec's ReadinessGate contract, a consumer registered
before resolution waits; one registered after resolution observes the
same single outcome immediately. -/
def on_ready (g : Gate) (cb : Nat) : Gate × List GateEvent :=
  match g.outcome with
  | none => ({ g with waiting := g.waiting ++ [cb] }, [])
  | some o => (g, [.notify cb o])

/-- Modelled from the spec: `ready` (`comm.py:120`) delegates to
`Deferred.callback`, whose implementation (Twisted) is not part of `src/`.
Per the spec's ReadinessGate contract the gate is fulfilled exactly once:
resolving notifies every waiting consumer, in registration order, with
the live session; resolving a second time is an error. -/
def ready (g : Gate) (proto : Nat) : Gate × Except GateError (List GateEvent) :=
  match g.outcome with
  | some _ => (g, .error .alreadyResolved)
  | none =>
      ({ waiting := [], outcome := some (.session proto) },
        .ok (g.waiting.map (fun cb => .notify cb (.session proto))))

/-- Modelled from the spec: `clientConnectionFailed` (`comm.py:130`)
delegates to `Deferred.errback`, whose implementation (Twisted) is not
part of `src/`.  Per the spec, a connection attempt that never reaches
usability fulfills the gate exactly once with the failure reason. -/
def clientConnectionFailed (g : Gate) (reason : Nat) : Gate × Except GateError (List GateEvent) :=
  match g.outcome with
  | some _ => (g, .error .alreadyResolved)
  | none =>
      ({ waiting := [], outcome := some (.failure reason) },
        .ok (g.waiting.map (fun cb => .notify cb (.failure reason))))

/-! ### Dictionary lemmas -/

theorem dlookup_derase_self {K V : Type} [DecidableEq K] (d : List (K × V)) (k : K) :
    dlookup (derase d k) k = none := by
  induction d with
  | nil => rfl
  | cons p rest ih =>
      by_cases h : p.1 = k
      · simpa [derase, List.filter_cons, h] using ih
      · simpa [derase, List.filter_cons, h, dlookup] using ih

theorem dlookup_dinsert_self {K V : Type} [DecidableEq K] (d : List (K × V)) (k : K) (v : V) :
    dlookup (dinsert d k v) k = some v := by
  induction d with
  | nil => simp [dinsert, dlookup]
  | cons p rest ih =>
      by_cases h : p.1 = k
      · simp [dinsert, h, dlookup]
      · simpa [dinsert, h, dlookup] using ih

/-! ### Claim theorems -/

/-- C1: for a pending service request registered under id `x` with both a
success and a failure callback supplied, dispatching one
`service_response` envelope carrying id `x` (with its `values` payload
present) removes `x` from the correlation table and invokes exactly one
of the two callbacks — the event list is a single `invoke` of either the
success or the failure callback, never both and never neither. -/
theorem service_response_exactly_one_callback
    (st : ProtoState) (m : Msg) (x : JValue) (c e : Nat) (v : JValue)
    (hid : mlookup m "id" = some x)
    (hpend : dlookup st.pending x = some (some c, some e))
    (hval : mlookup m "values" = some v) :
    ∃ cb, (cb = c ∨ cb = e) ∧
      handle_service_response st m =
        ({ st with pending := derase st.pending x }, .ok [Event.invoke cb v]) ∧
      dlookup (derase st.pending x) x = none := by
  by_cases hr : resultIsFalse m
  · exact ⟨e, Or.inr rfl,
      by simp [handle_service_response, hid, hpend, hr, hval], dlookup_derase_self _ _⟩
  · exact ⟨c, Or.inl rfl,
      by simp [handle_service_response, hid, hpend, hr, hval], dlookup_derase_self _ _⟩

/-- Witness for C1 at the spec's concrete scenario: id `"42"`, success
callback `1`, failure callback `2`, payload `{}`. -/
theorem service_response_exactly_one_callback_witness :
    ∃ cb, (cb = 1 ∨ cb = 2) ∧
      handle_service_response
        { pending := [(.str "42", (some 1, some 2))]
          handlers := [("publish", .handlePublish), ("service_response", .handleServiceResponse)]
          sent := [], transportFails := false, log := [] }
        [("op", .str "service_response"), ("id", .str "42"), ("values", .obj .nil)] =
        ({ pending := derase [((JValue.str "42"), (some 1, some 2))] (.str "42")
           handlers := [("publish", .handlePublish), ("service_response", .handleServiceResponse)]
           sent := [], transportFails := false, log := [] },
          .ok [Event.invoke cb (.obj .nil)]) ∧
      dlookup (derase [((JValue.str "42"), (some 1, some 2))] (.str "42")) (.str "42") = none :=
  service_response_exactly_one_callback _ _ (.str "42") 1 2 (.obj .nil)
    (by decide) (by decide) (by decide)

/-- C2: the default `service_response` handler, on an envelope whose id
has a pending entry, removes the entry from the table first, then — when
`result` only ever carries a boolean, as the wire format prescribes —
invokes the failure callback with the `values` payload when `result` is
present and explicitly `false` and the failure callback is non-null, and
otherwise invokes the success callback with the `values` payload when it
is non-null.  (The success callback receives the payload wrapped as a
content-preserving `ServiceRequest` dict in the source.) -/
theorem service_response_removes_then_branches
    (st : ProtoState) (m : Msg) (x : JValue) (cb eb : Option Nat) (v : JValue)
    (hid : mlookup m "id" = some x)
    (hpend : dlookup st.pending x = some (cb, eb))
    (hval : mlookup m "values" = some v)
    (hres : ∀ r, mlookup m "result" = some r → ∃ b, r = JValue.bool b) :
    handle_service_response st m =
      ({ st with pending := derase st.pending x },
        .ok (if mlookup m "result" = some (JValue.bool false) then
               (match eb with | some e => [Event.invoke e v] | none => [])
             else
               (match cb with | some c => [Event.invoke c v] | none => []))) := by
  have hr : resultIsFalse m = decide (mlookup m "result" = some (JValue.bool false)) := by
    unfold resultIsFalse
    cases hres0 : mlookup m "result" with
    | none => simp
    | some r =>
        obtain ⟨b, rfl⟩ := hres _ hres0
        cases b <;> simp [pyEqFalse]
  by_cases hb : mlookup m "result" = some (JValue.bool false)
  · cases eb <;> simp [handle_service_response, hid, hpend, hr, hb, hval]
  · cases cb <;> simp [handle_service_response, hid, hpend, hr, hb, hval]

/-- Witness for C2: id `"7"`, `result: false`, failure callback `9` fires
with the `values` payload `"boom"`. -/
theorem service_response_removes_then_branches_witness :
    handle_service_response
      { pending := [(.str "7", (some 8, some 9))]
        handlers := [("publish", .handlePublish), ("service_response", .handleServiceResponse)]
        sent := [], transportFails := false, log := [] }
      [("op", .str "service_response"), ("id", .str "7"), ("result", .bool false),
        ("values", .str "boom")] =
      ({ pending := derase [((JValue.str "7"), (some 8, some 9))] (.str "7")
         handlers := [("publish", .handlePublish), ("service_response", .handleServiceResponse)]
         sent := [], transportFails := false, log := [] },
        .ok (if mlookup [("op", JValue.str "service_response"), ("id", JValue.str "7"),
                ("result", JValue.bool false), ("values", JValue.str "boom")] "result" =
                some (JValue.bool false) then
               [Event.invoke 9 (.str "boom")]
             else
               [Event.invoke 8 (.str "boom")])) :=
  service_response_removes_then_branches _ _ (.str "7") (some 8) (some 9) (.str "boom")
    (by decide) (by decide) (by decide)
    (fun r hr => ⟨false, by simp [mlookup] at hr; exact hr.symm⟩)

/-- C3: dispatching a `service_response` envelope whose id has no pending
entry — in particular any second response for an already-resolved id —
raises `UnknownRequestIdError`; the state (and so the correlation table)
is returned unchanged and no callback event is produced. -/
theorem service_response_unknown_id
    (st : ProtoState) (m : Msg) (x : JValue)
    (hid : mlookup m "id" = some x)
    (hpend : dlookup st.pending x = none) :
    handle_service_response st m = (st, .error .unknownRequestId) := by
  simp [handle_service_response, hid, hpend]

/-- Witness for C3 at the spec's concrete scenario: after the response
for id `"42"` has been consumed, a second `service_response` for `"42"`
fails with the unknown-request-id error and leaves the state unchanged. -/
theorem service_response_unknown_id_witness :
    handle_service_response
      (handle_service_response
        { pending := [(.str "42", (some 1, some 2))]
          handlers := [("publish", .handlePublish), ("service_response", .handleServiceResponse)]
          sent := [], transportFails := false, log := [] }
        [("op", .str "service_response"), ("id", .str "42"), ("values", .obj .nil)]).1
      [("op", .str "service_response"), ("id", .str "42"), ("result", .bool false),
        ("values", .str "boom")] =
      ((handle_service_response
        { pending := [(.str "42", (some 1, some 2))]
          handlers := [("publish", .handlePublish), ("service_response", .handleServiceResponse)]
          sent := [], transportFails := false, log := [] }
        [("op", .str "service_response"), ("id", .str "42"), ("values", .obj .nil)]).1,
        .error .unknownRequestId) :=
  service_response_unknown_id _ _ (.str "42") (by decide) (by decide)

/-- C4: registering a handler for an operation tag that already has one —
including the built-in defaults for `publish` and `service_response` —
fails with the handler-conflict error and leaves the previously
registered handler in effect: the state is returned unchanged and the
registry still maps the tag to the original handler. -/
theorem register_conflict_keeps_original
    (st : ProtoState) (op : String) (h₀ h : Handler)
    (hreg : dlookup st.handlers op = some h₀) :
    register_message_handlers st op h = (st, .error .handlerConflict) ∧
    dlookup (register_message_handlers st op h).1.handlers op = some h₀ := by
  have hconf : register_message_handlers st op h = (st, .error .handlerConflict) := by
    simp [register_message_handlers, hreg]
  exact ⟨hconf, by rw [hconf]; exact hreg⟩

/-- Witness for C4: re-registering the built-in `publish` handler on a
freshly constructed protocol fails and the default handler stays. -/
theorem register_conflict_keeps_original_witness :
    register_message_handlers (initState false) "publish" (.custom 5) =
      (initState false, .error .handlerConflict) ∧
    dlookup (register_message_handlers (initState false) "publish" (.custom 5)).1.handlers
      "publish" = some .handlePublish :=
  register_conflict_keeps_original (initState false) "publish" .handlePublish (.custom 5)
    (by decide)

/-- C5: dispatching a `publish` envelope with topic `t` and payload
`msgv` (with the default `publish` handler registered, as it is from
construction on) produces exactly one fan-out invocation, routed by `t`
and carrying `msgv`, and leaves the state unchanged. -/
theorem publish_dispatch_single_emit
    (st : ProtoState) (m : Msg) (t msgv : JValue)
    (hop : mlookup m "op" = some (.str "publish"))
    (hh : dlookup st.handlers "publish" = some .handlePublish)
    (ht : mlookup m "topic" = some t)
    (hm : mlookup m "msg" = some msgv) :
    onMessage st m false = (st, .ok [Event.emit t msgv]) := by
  simp [onMessage, hop, lookupHandler, hh, runHandler, handle_publish, ht, hm]

/-- Witness for C5 at the spec's concrete scenario: publishing on
`/scan` with payload `{"ranges": []}` yields one emit event. -/
theorem publish_dispatch_single_emit_witness :
    onMessage (initState false)
      [("op", .str "publish"), ("topic", .str "/scan"),
        ("msg", .obj (.cons "ranges" (.arr .nil) .nil))] false =
      (initState false,
        .ok [Event.emit (.str "/scan") (.obj (.cons "ranges" (.arr .nil) .nil))]) :=
  publish_dispatch_single_emit (initState false) _ (.str "/scan")
    (.obj (.cons "ranges" (.arr .nil) .nil)) (by decide) (by decide) (by decide) (by decide)

/-- C6: processing an inbound frame fails with the unsupported-frame
error when the frame is binary; otherwise the decoded envelope is
dispatched on its `op` tag — failing with the unknown-operation error
when no handler is registered for it, and running the registered handler
when one is.  In both failure cases the returned state is the input
state, so the correlation table is unmutated. -/
theorem onMessage_frame_and_dispatch_errors
    (st : ProtoState) (m : Msg) :
    onMessage st m true = (st, .error .unsupportedFrame) ∧
    (∀ opv, mlookup m "op" = some opv → lookupHandler st opv = none →
      onMessage st m false = (st, .error .unknownOperation)) ∧
    (∀ opv h, mlookup m "op" = some opv → lookupHandler st opv = some h →
      onMessage st m false = runHandler st h m) := by
  refine ⟨rfl, ?_, ?_⟩
  · intro opv hop hnone
    simp [onMessage, hop, hnone]
  · intro opv h hop hsome
    simp [onMessage, hop, hsome]

/-- Witness for C6: a binary frame is rejected, and a text frame with the
unregistered tag `"mystery"` fails with the unknown-operation error,
leaving the fresh state unchanged both times. -/
theorem onMessage_frame_and_dispatch_errors_witness :
    onMessage (initState false) [("op", .str "mystery")] true =
      (initState false, .error .unsupportedFrame) ∧
    onMessage (initState false) [("op", .str "mystery")] false =
      (initState false, .error .unknownOperation) :=
  ⟨(onMessage_frame_and_dispatch_errors (initState false) [("op", .str "mystery")]).1,
    (onMessage_frame_and_dispatch_errors (initState false) [("op", .str "mystery")]).2.1
      (.str "mystery") (by decide) (by decide)⟩

/-- C7: `send_ros_message` serializes the envelope and writes it to the
transport; its return type has no error channel at all, so it returns
normally in every case — on a transport-level send failure the error is
only logged (one log record appended) and swallowed, and the caller
receives no indication that nothing was written. -/
theorem send_ros_message_swallows_send_errors
    (st : ProtoState) (m : Msg) :
    send_ros_message st m =
      if st.transportFails then { st with log := st.log ++ ["Failed to send message"] }
      else { st with sent := st.sent ++ [m] } := by
  by_cases hf : st.transportFails <;>
    simp [send_ros_message, sendMessage, hf]

/-- C8: the readiness gate is resolved exactly once per connection
attempt and every consumer observes the same single outcome: with two
`on_ready` consumers registered before resolution, neither fires early,
resolving with the live session notifies each exactly once — both with
that same session — and any second resolution attempt is an error. -/
theorem gate_resolved_once_same_outcome (cb1 cb2 proto proto' : Nat) :
    (on_ready gateInit cb1).2 = [] ∧
    (on_ready (on_ready gateInit cb1).1 cb2).2 = [] ∧
    (ready (on_ready (on_ready gateInit cb1).1 cb2).1 proto).2 =
      .ok [GateEvent.notify cb1 (.session proto), GateEvent.notify cb2 (.session proto)] ∧
    (ready (ready (on_ready (on_ready gateInit cb1).1 cb2).1 proto).1 proto').2 =
      .error .alreadyResolved :=
  ⟨rfl, rfl, rfl, rfl⟩

/-- C9: issuing a service request whose id is already live in the
correlation table silently overwrites the existing entry: the table now
maps the id to the new callback pair (so the old pair can no longer be
reached by a response), and the operation's outcome is decided by the
transport alone — `sendFailure` or success — never a duplicate-id
error (the error type of the core has no such case at all). -/
theorem duplicate_id_silent_overwrite
    (st : ProtoState) (req : Msg) (x : JValue) (cb eb cb₀ eb₀ : Option Nat)
    (hid : mlookup req "id" = some x)
    (_hlive : dlookup st.pending x = some (cb₀, eb₀)) :
    dlookup (send_ros_service_request st req cb eb).1.pending x = some (cb, eb) ∧
    (send_ros_service_request st req cb eb).2 =
      (if st.transportFails then Except.error ProtoError.sendFailure else Except.ok ()) := by
  by_cases hf : st.transportFails <;>
    simp [send_ros_service_request, hid, sendMessage, hf, dlookup_dinsert_self]

/-- Witness for C9: id `"9"` is live with pair `(1, 2)`; re-requesting it
with pair `(3, 4)` leaves the table mapping `"9"` to `(3, 4)`. -/
theorem duplicate_id_silent_overwrite_witness :
    dlookup (send_ros_service_request
      { pending := [(.str "9", (some 1, some 2))]
        handlers := [("publish", .handlePublish), ("service_response", .handleServiceResponse)]
        sent := [], transportFails := false, log := [] }
      [("op", .str "call_service"), ("id", .str "9"), ("service", .str "/svc")]
      (some 3) (some 4)).1.pending (.str "9") = some (some 3, some 4) :=
  (duplicate_id_silent_overwrite _ _ (.str "9") (some 3) (some 4) (some 1) (some 2)
    (by decide) (by decide)).1

/-- C10: `send_ros_service_request` stores the pending callback pair in
the correlation table before attempting the transport send, and — unlike
`send_ros_message` — wraps the send in no handler: when the transport
send raises, the error propagates to the caller while the table still
holds the freshly registered entry (registration is not rolled back);
when the send succeeds the call returns normally. -/
theorem request_stored_before_send_error_propagates
    (st : ProtoState) (req : Msg) (x : JValue) (cb eb : Option Nat)
    (hid : mlookup req "id" = some x) :
    dlookup (send_ros_service_request st req cb eb).1.pending x = some (cb, eb) ∧
    (st.transportFails = true →
      (send_ros_service_request st req cb eb).2 = .error .sendFailure) ∧
    (st.transportFails = false →
      (send_ros_service_request st req cb eb).2 = .ok ()) := by
  by_cases hf : st.transportFails <;>
    simp [send_ros_service_request, hid, sendMessage, hf, dlookup_dinsert_self]

/-- Witness for C10: with a failing transport, the request for id `"77"`
raises the send error yet the pending entry remains registered. -/
theorem request_stored_before_send_error_propagates_witness :
    dlookup (send_ros_service_request
      { pending := []
        handlers := [("publish", .handlePublish), ("service_response", .handleServiceResponse)]
        sent := [], transportFails := true, log := [] }
      [("op", .str "call_service"), ("id", .str "77")] (some 5) none).1.pending
      (.str "77") = some (some 5, none) ∧
    (send_ros_service_request
      { pending := []
        handlers := [("publish", .handlePublish), ("service_response", .handleServiceResponse)]
        sent := [], transportFails := true, log := [] }
      [("op", .str "call_service"), ("id", .str "77")] (some 5) none).2 =
      .error .sendFailure :=
  ⟨(request_stored_before_send_error_propagates _ _ (.str "77") (some 5) none (by decide)).1,
    (request_stored_before_send_error_propagates _ _ (.str "77") (some 5) none (by decide)).2.1
      rfl⟩

end Roslibpy
